import Mathlib

/-!
Shallow embedding of `main.py` of the speech-translator-app repository.

The program is a Kivy press-and-hold recorder: a cloud wrapper
`translate_audio_with_sarvamai`, a recording worker with an Android
raw-PCM path and a desktop path, and two touch handlers.  Effectful
steps (the sarvamai SDK, the Android `AudioRecord` binding, the `wave`
module, the filesystem) are modelled by explicit environments of oracle
answers; each embedded function returns the trace of external operations
it performed together with its result.
-/

namespace SpeechApp

/-! ## Python string primitives used by the source

The source uses `str.lower`, `str.endswith` and `str.strip`; they are
embedded as plain char-list computations so that concrete instances
evaluate by `decide`. -/

/-- Embedding of Python `str.lower()`. -/
def pyLower (s : String) : String := String.mk (s.data.map Char.toLower)

/-- Embedding of Python `str.endswith(t)`. -/
def pyEndsWith (s t : String) : Bool := (s.data.reverse.take t.data.length) == t.data.reverse

/-- Embedding of Python `str.strip()`. -/
def pyStrip (s : String) : String :=
  String.mk (((s.data.dropWhile Char.isWhitespace).reverse.dropWhile Char.isWhitespace).reverse)

/-- Embedding of Python `os.path.join(a, b)` for a relative second component. -/
def pathJoin (a b : String) : String := a ++ "/" ++ b

/-! ## The cloud flow: `translate_audio_with_sarvamai` (main.py lines 80-136)

Every call into the sarvamai SDK or the filesystem becomes a `CloudOp`
recorded in a trace.  The environment says, for each step, whether the
step raised (`some e` carries the exception text as the source would
render it) and what the polled job / downloaded outputs look like. -/

/-- One external operation performed by the cloud flow, with its arguments. -/
inductive CloudOp where
  | createJob (model : String) (withDiarization : Bool) (numSpeakers : Nat) (prompt : String)
  | uploadFiles (filePaths : List String)
  | startJob
  | waitUntilComplete
  | isFailedCheck
  | makeOutputDir (dir : String)
  | downloadOutputs (dir : String)
deriving DecidableEq, Repr

/-- The constructor kind of a `CloudOp`, forgetting arguments. -/
inductive OpKind where
  | create | upload | start | wait | checkFailed | mkdir | download
deriving DecidableEq, Repr

/-- Kind of an operation. -/
def CloudOp.kind : CloudOp → OpKind
  | .createJob _ _ _ _ => .create
  | .uploadFiles _ => .upload
  | .startJob => .start
  | .waitUntilComplete => .wait
  | .isFailedCheck => .checkFailed
  | .makeOutputDir _ => .mkdir
  | .downloadOutputs _ => .download

/-- A JSON value as far as the extraction loop inspects it: a string, or
anything else (`isinstance(j[k], str)` is the only type test performed). -/
inductive JVal where
  | str (s : String)
  | other
deriving DecidableEq, Repr

/-- A file found under the output directory by `os.walk` after download:
its name, its text content (used for `.txt` files) and its JSON parse
result (used for `.json` files; `none` models a `json.load` failure). -/
structure OutFile where
  name : String
  text : String
  json : Option (List (String × JVal))
deriving DecidableEq, Repr

/-- Oracle answers for one call of `translate_audio_with_sarvamai`.
A `some e` in a `...Raise` field means that step raised an exception
whose rendered text is `e`; `none` means the step succeeded. -/
structure SarvamEnv where
  importRaise : Option String
  clientRaise : Option String
  createRaise : Option String
  uploadRaise : Option String
  startRaise : Option String
  waitRaise : Option String
  jobFailed : Bool
  mkdirRaise : Option String
  downloadRaise : Option String
  cwd : String
  outputs : List OutFile

/-- Python dict lookup `j[k]` guarded by `k in j`. -/
def jsonLookup (kvs : List (String × JVal)) (k : String) : Option JVal :=
  match kvs.find? (fun p => p.1 == k) with
  | some p => some p.2
  | none => none

/-- The key list of the extraction loop (main.py line 125). -/
def extractKeys : List String := ["text", "transcript", "translation", "translated_text"]

/-- Lines aggregated from one `.json` file: for each key of `extractKeys`
in order, if the key maps to a string with non-empty strip, the formatted
fragment is collected (main.py lines 125-127). -/
def jsonItems (fname : String) (kvs : List (String × JVal)) : List String :=
  extractKeys.foldr
    (fun k acc =>
      match jsonLookup kvs k with
      | some (JVal.str s) =>
          if pyStrip s ≠ "" then
            ("--- " ++ fname ++ ":" ++ k ++ " ---\n" ++ pyStrip s) :: acc
          else acc
      | _ => acc)
    []

/-- Lines aggregated from one output file (main.py lines 115-129). -/
def extractFromFile (f : OutFile) : List String :=
  if pyEndsWith (pyLower f.name) ".txt" then
    let txt := pyStrip f.text
    if txt ≠ "" then ["--- " ++ f.name ++ " ---\n" ++ txt] else []
  else if pyEndsWith (pyLower f.name) ".json" then
    match f.json with
    | none => []
    | some kvs => jsonItems f.name kvs
  else []

/-- The full `aggregated` list built by the walk over the output directory
(main.py lines 113-129). -/
def aggregateOutputs (files : List OutFile) : List String :=
  (files.map extractFromFile).flatten

/-- The body of the big `try` of `translate_audio_with_sarvamai`
(main.py lines 91-134): the trace of operations attempted, and either
the returned pair or the exception text that escaped the body. -/
def translate_body (env : SarvamEnv) (wav_path api_key model prompt : String) :
    List CloudOp × Except String (Bool × String) :=
  match env.clientRaise with
  | some e => ([], .error e)
  | none =>
    let op1 := CloudOp.createJob model false 1 prompt
    match env.createRaise with
    | some e => ([op1], .error e)
    | none =>
      let op2 := CloudOp.uploadFiles [wav_path]
      match env.uploadRaise with
      | some e => ([op1, op2], .error e)
      | none =>
        let op3 := CloudOp.startJob
        match env.startRaise with
        | some e => ([op1, op2, op3], .error e)
        | none =>
          let op4 := CloudOp.waitUntilComplete
          match env.waitRaise with
          | some e => ([op1, op2, op3, op4], .error e)
          | none =>
            let op5 := CloudOp.isFailedCheck
            if env.jobFailed then
              ([op1, op2, op3, op4, op5], .ok (false, "STT job failed."))
            else
              let output_dir := pathJoin env.cwd "sarvamai_output"
              let op6 := CloudOp.makeOutputDir output_dir
              match env.mkdirRaise with
              | some e => ([op1, op2, op3, op4, op5, op6], .error e)
              | none =>
                let op7 := CloudOp.downloadOutputs output_dir
                match env.downloadRaise with
                | some e => ([op1, op2, op3, op4, op5, op6, op7], .error e)
                | none =>
                  let aggregated := aggregateOutputs env.outputs
                  if aggregated.isEmpty then
                    ([op1, op2, op3, op4, op5, op6, op7],
                     .ok (true, "Output downloaded to: " ++ output_dir ++
                                " (no text/json translation found)."))
                  else
                    ([op1, op2, op3, op4, op5, op6, op7],
                     .ok (true, String.intercalate "\n\n" aggregated))

/-- Embedding of `translate_audio_with_sarvamai` (main.py lines 80-136):
the import guard, then the body with its `except` clause turning any
escaped exception `e` into `(False, f"Translation error: {repr(e)}")`;
the environment supplies `repr(e)` directly. -/
def translate_audio_with_sarvamai (env : SarvamEnv) (wav_path api_key model prompt : String) :
    List CloudOp × Bool × String :=
  match env.importRaise with
  | some e => ([], false, "sarvamai lib not available on runtime: " ++ e)
  | none =>
    match translate_body env wav_path api_key model prompt with
    | (tr, .ok r) => (tr, r.1, r.2)
    | (tr, .error e) => (tr, false, "Translation error: " ++ e)

/-! ## PCM sample packing

The Android path packs each captured Java `short` with
`struct.pack('<h', sval)`; the desktop path writes the bytes of numpy
`int16` chunks (little-endian on the supported hosts).  Both are the
two-byte little-endian two's-complement encoding `int16le`. -/

/-- Little-endian signed 16-bit encoding of one sample, as produced by
`struct.pack('<h', v)` for `-32768 ≤ v ≤ 32767` (and by the two's
complement stored in a numpy `int16`). -/
def int16le (v : Int) : List Nat :=
  let u : Nat := (v % 65536).toNat
  [u % 256, u / 256]

/-- Little-endian signed 16-bit decoding of a two-byte sequence. -/
def decodeInt16le : List Nat → Int
  | [b0, b1] =>
      let u := b0 + 256 * b1
      if u < 32768 then (u : Int) else (u : Int) - 65536
  | _ => 0

/-- Packing of one chunk of samples: the concatenated `int16le` bytes
(the `for i in range(read): b.extend(struct.pack('<h', ...))` loop, and
likewise the bytes of a numpy `int16` chunk). -/
def packChunk (samples : List Int) : List Nat := (samples.map int16le).flatten

/-! ## The `wave` module writer

Both capture paths hand container construction to Python's `wave`
module; its writer object is modelled as the state below, one operation
per method called by the source. -/

/-- State of a `wave` module writer object. -/
structure WaveWrite where
  nchannels : Option Nat
  sampwidth : Option Nat
  framerate : Option Nat
  frames : List Nat
deriving DecidableEq, Repr

/-- `wave.open(path, 'wb')`: a fresh writer with no parameters set. -/
def WaveWrite.openWav : WaveWrite := ⟨none, none, none, []⟩

/-- `wf.setnchannels(n)`. -/
def WaveWrite.setnchannels (w : WaveWrite) (n : Nat) : WaveWrite := { w with nchannels := some n }

/-- `wf.setsampwidth(n)`. -/
def WaveWrite.setsampwidth (w : WaveWrite) (n : Nat) : WaveWrite := { w with sampwidth := some n }

/-- `wf.setframerate(n)`. -/
def WaveWrite.setframerate (w : WaveWrite) (n : Nat) : WaveWrite := { w with framerate := some n }

/-- `wf.writeframes(b)`: append the bytes to the data chunk. -/
def WaveWrite.writeframes (w : WaveWrite) (b : List Nat) : WaveWrite :=
  { w with frames := w.frames ++ b }

/-! ## Android capture: `_record_android_pcm` (main.py lines 221-287) -/

/-- Observable events of the Android capture routine, in order. -/
inductive RecEvent where
  | waveOpened
  | startedRecording
  | readChunk (n : Nat)
  | wroteFrames (b : List Nat)
  | slept
  | stopped
  | released
  | waveClosed
  | appendedOutput (s : String)
deriving DecidableEq, Repr

/-- Oracle answers for one run of the Android capture routine:
the `getMinBufferSize` result, whether `getState` returned
`STATE_INITIALIZED`, the value of `self.recording` read at the top of
each loop iteration, and the shorts delivered by `ar.read` at each
iteration (an error return behaves like an empty read). -/
structure AndroidEnv where
  minBuf : Int
  stateInitialized : Bool
  flags : Nat → Bool
  reads : Nat → List Int

/-- The `while self.recording:` read/pack/write loop (main.py lines
266-279), by fuel on the number of iterations the flag stays true.
Returns `none` when the fuel runs out with the flag still true, else the
final writer state, the loop's events, and the iteration index at which
the flag was first read as false. -/
def androidLoop (env : AndroidEnv) (chunk_size : Nat) :
    Nat → Nat → WaveWrite → Option (WaveWrite × List RecEvent × Nat)
  | 0, k, w => if env.flags k then none else some (w, [], k)
  | fuel + 1, k, w =>
    if env.flags k then
      let samples := (env.reads k).take chunk_size
      let read := samples.length
      if 0 < read then
        let b := packChunk samples
        match androidLoop env chunk_size fuel (k + 1) (w.writeframes b) with
        | none => none
        | some (w2, evs, ke) =>
            some (w2, RecEvent.readChunk read :: RecEvent.wroteFrames b :: evs, ke)
      else
        match androidLoop env chunk_size fuel (k + 1) w with
        | none => none
        | some (w2, evs, ke) =>
            some (w2, RecEvent.readChunk read :: RecEvent.slept :: evs, ke)
    else some (w, [], k)

/-- A completed run of the Android capture routine: its events, the
final `wave` writer when one was opened, and the exception it raised,
if any. -/
structure AndroidRun where
  events : List RecEvent
  wave : Option WaveWrite
  raised : Option String
  kend : Option Nat
deriving DecidableEq, Repr

/-- Embedding of `_record_android_pcm(out_wav_path, sample_rate, channels)`
(main.py lines 221-287).  `none` models the run that never finishes
because the flag never turns false within the fuel. -/
def record_android_pcm (env : AndroidEnv) (fuel : Nat) (out_wav_path : String)
    (sample_rate channels : Nat) : Option AndroidRun :=
  let min_buf : Int := if env.minBuf ≤ 0 then ((sample_rate * 2 : Nat) : Int) else env.minBuf
  let buffer_size : Nat := min_buf.toNat
  if env.stateInitialized = false then
    some { events := [], wave := none,
           raised := some "AudioRecord initialization failed (state != INITIALIZED)",
           kend := none }
  else
    let wf0 := (((WaveWrite.openWav.setnchannels channels).setsampwidth 2).setframerate
      sample_rate)
    let chunk_size := buffer_size / 2
    match androidLoop env chunk_size fuel 0 wf0 with
    | none => none
    | some (w, loopEvs, ke) =>
        some { events :=
                 [RecEvent.waveOpened, RecEvent.startedRecording,
                  RecEvent.appendedOutput "Recording (Android) ... speak now"] ++
                 loopEvs ++
                 [RecEvent.stopped, RecEvent.released, RecEvent.waveClosed,
                  RecEvent.appendedOutput ("Saved WAV to: " ++ out_wav_path)],
               wave := some w, raised := none, kend := some ke }

/-! ## The recording worker `_record_worker` (main.py lines 177-219) -/

/-- `sample_rate = 16000` (main.py line 183). -/
def sample_rate : Nat := 16000

/-- `channels = 1` (main.py line 184). -/
def channels : Nat := 1

/-- `sampwidth = 2` (main.py line 185). -/
def sampwidth : Nat := 2

/-- The Android branch of `_record_worker`: the capture routine invoked
with the worker's `sample_rate` and `channels` (main.py line 190). -/
def record_worker_android (env : AndroidEnv) (fuel : Nat) (path : String) : Option AndroidRun :=
  record_android_pcm env fuel path sample_rate channels

/-- The `while self.recording: time.sleep(0.05)` wait of the desktop
branch (main.py lines 207-208), by fuel; returns the iteration at which
the flag was first read false. -/
def desktopWaitLoop (flags : Nat → Bool) : Nat → Nat → Option Nat
  | 0, k => if flags k then none else some k
  | fuel + 1, k => if flags k then desktopWaitLoop flags fuel (k + 1) else some k

/-- The desktop branch of `_record_worker` after capture (main.py lines
209-215): the chunks collected by the callback are joined and written
through the `wave` module with the worker's parameters. -/
def record_worker_desktop (frames : List (List Int)) : WaveWrite :=
  let data := (frames.map packChunk).flatten
  ((((WaveWrite.openWav.setnchannels channels).setsampwidth sampwidth).setframerate
    sample_rate).writeframes data)

/-! ## UI handlers (main.py lines 157-175) and post-processing (289-305) -/

/-- The widget state the touch handlers read and write: the recording
flag, the record button's label, the output box text, and the stored
path of the last recording. -/
structure UIState where
  recording : Bool
  btnText : String
  outputBox : String
  wavPath : Option String
deriving DecidableEq, Repr

/-- A worker thread spawned by a handler. -/
inductive Spawned where
  | recordWorker
  | postProcess
deriving DecidableEq, Repr

/-- Embedding of `on_record_press(touch)` (main.py lines 157-166).
`collides` is the result of `self.ids.record_btn.collide_point(*touch.pos)`;
the handler returns the new state and the threads it started.  The
self-assignment of the output box (line 162) leaves it unchanged. -/
def on_record_press (collides : Bool) (st : UIState) : UIState × List Spawned :=
  if collides = false then (st, [])
  else
    ({ st with btnText := "Recording...",
               outputBox := st.outputBox,
               recording := true },
     [Spawned.recordWorker])

/-- Embedding of `on_record_release(touch)` (main.py lines 168-175). -/
def on_record_release (collides : Bool) (st : UIState) : UIState × List Spawned :=
  if collides = false then (st, [])
  else
    ({ st with recording := false, btnText := "⏺ Hold to Record" },
     [Spawned.postProcess])

/-- Result of one run of `_post_process_and_translate`: the lines it
appended to the output box, whether it called
`translate_audio_with_sarvamai`, and the cloud trace of that call. -/
structure PostRun where
  outputs : List String
  called : Bool
  cloudTrace : List CloudOp
deriving DecidableEq, Repr

/-- Embedding of `_post_process_and_translate` (main.py lines 289-305).
`fileExists` is the `os.path.exists` oracle; the Python falsiness test
`not path` holds for the unset path and for the empty string.  The call
passes the stripped API key, model `"saaras:v2.5"` and the default
prompt. -/
def post_process_and_translate (env : SarvamEnv) (fileExists : String → Bool)
    (wavPath : Option String) (apiKeyRaw : String) : PostRun :=
  match wavPath with
  | none => { outputs := ["No recorded file found."], called := false, cloudTrace := [] }
  | some path =>
    if path = "" ∨ fileExists path = false then
      { outputs := ["No recorded file found."], called := false, cloudTrace := [] }
    else
      let api_key := pyStrip apiKeyRaw
      let r := translate_audio_with_sarvamai env path api_key "saaras:v2.5" "casual chat"
      if r.2.1 then
        { outputs := ["Starting translation upload...", "Translation result:", r.2.2],
          called := true, cloudTrace := r.1 }
      else
        { outputs := ["Starting translation upload...", "Translation failed: " ++ r.2.2],
          called := true, cloudTrace := r.1 }

/-! ## Helper lemmas about the capture loops -/

theorem packChunk_append (a b : List Int) : packChunk (a ++ b) = packChunk a ++ packChunk b := by
  simp [packChunk]

/-- A completed `androidLoop` run: the writer's parameters are untouched,
the appended bytes are the packed bytes of some sample list, the flag is
false at the exit iteration and true at every earlier one. -/
theorem androidLoop_spec (env : AndroidEnv) (cs : Nat) :
    ∀ (fuel k : Nat) (w w' : WaveWrite) (evs : List RecEvent) (ke : Nat),
      androidLoop env cs fuel k w = some (w', evs, ke) →
      w'.nchannels = w.nchannels ∧ w'.sampwidth = w.sampwidth ∧ w'.framerate = w.framerate ∧
      (∃ S : List Int, w'.frames = w.frames ++ packChunk S) ∧
      env.flags ke = false ∧ (∀ j, k ≤ j → j < ke → env.flags j = true) := by
  intro fuel
  induction fuel with
  | zero =>
    intro k w w' evs ke h
    by_cases hk : env.flags k = true
    · simp [androidLoop, hk] at h
    · simp only [Bool.not_eq_true] at hk
      simp [androidLoop, hk] at h
      obtain ⟨hw, _, hke⟩ := h
      subst hw; subst hke
      refine ⟨rfl, rfl, rfl, ⟨[], by simp [packChunk]⟩, hk, ?_⟩
      intro j h1 h2; omega
  | succ fuel ih =>
    intro k w w' evs ke h
    by_cases hk : env.flags k = true
    · simp only [androidLoop, hk, if_true] at h
      by_cases hr : 0 < ((env.reads k).take cs).length
      · simp only [hr, if_true] at h
        cases hm : androidLoop env cs fuel (k + 1)
            (w.writeframes (packChunk ((env.reads k).take cs))) with
        | none => rw [hm] at h; simp at h
        | some r =>
          obtain ⟨w2, evs2, ke2⟩ := r
          rw [hm] at h
          simp only [Option.some.injEq, Prod.mk.injEq] at h
          obtain ⟨hw2, _, hke2⟩ := h
          subst hw2; subst hke2
          obtain ⟨h1, h2, h3, ⟨S, hS⟩, h5, h6⟩ := ih (k + 1) _ _ _ _ hm
          refine ⟨h1, h2, h3, ?_, h5, ?_⟩
          · refine ⟨(env.reads k).take cs ++ S, ?_⟩
            rw [hS]
            simp [WaveWrite.writeframes, packChunk_append]
          · intro j hj1 hj2
            rcases Nat.eq_or_lt_of_le hj1 with he | hl
            · rw [← he]; exact hk
            · exact h6 j hl hj2
      · simp only [hr, if_false] at h
        cases hm : androidLoop env cs fuel (k + 1) w with
        | none => rw [hm] at h; simp at h
        | some r =>
          obtain ⟨w2, evs2, ke2⟩ := r
          rw [hm] at h
          simp only [Option.some.injEq, Prod.mk.injEq] at h
          obtain ⟨hw2, _, hke2⟩ := h
          subst hw2; subst hke2
          obtain ⟨h1, h2, h3, h4, h5, h6⟩ := ih (k + 1) _ _ _ _ hm
          refine ⟨h1, h2, h3, h4, h5, ?_⟩
          intro j hj1 hj2
          rcases Nat.eq_or_lt_of_le hj1 with he | hl
          · rw [← he]; exact hk
          · exact h6 j hl hj2
    · simp only [Bool.not_eq_true] at hk
      simp [androidLoop, hk] at h
      obtain ⟨hw, _, hke⟩ := h
      subst hw; subst hke
      refine ⟨rfl, rfl, rfl, ⟨[], by simp [packChunk]⟩, hk, ?_⟩
      intro j h1 h2; omega

/-- If the flag is false after `n` more iterations, fuel `n + 1` is
enough for the `androidLoop` to finish. -/
theorem androidLoop_isSome (env : AndroidEnv) (cs : Nat) :
    ∀ (n k : Nat) (w : WaveWrite), env.flags (k + n) = false →
      (androidLoop env cs (n + 1) k w).isSome = true := by
  intro n
  induction n with
  | zero =>
    intro k w h
    rw [Nat.add_zero] at h
    simp [androidLoop, h]
  | succ n ih =>
    intro k w h
    have h' : env.flags ((k + 1) + n) = false := by
      have e : (k + 1) + n = k + (n + 1) := by omega
      rw [e]; exact h
    by_cases hk : env.flags k = true
    · rw [androidLoop, if_pos hk]
      by_cases hr : 0 < ((env.reads k).take cs).length
      · rw [if_pos hr]
        have i1 := ih (k + 1) (w.writeframes (packChunk ((env.reads k).take cs))) h'
        cases hm : androidLoop env cs (n + 1) (k + 1)
            (w.writeframes (packChunk ((env.reads k).take cs))) with
        | none => rw [hm] at i1; simp at i1
        | some r => obtain ⟨w2, evs2, ke2⟩ := r; simp [hm]
      · rw [if_neg hr]
        have i2 := ih (k + 1) w h'
        cases hm : androidLoop env cs (n + 1) (k + 1) w with
        | none => rw [hm] at i2; simp at i2
        | some r => obtain ⟨w2, evs2, ke2⟩ := r; simp
    · simp only [Bool.not_eq_true] at hk
      simp [androidLoop, hk]

/-- A finished `desktopWaitLoop`: the flag is false at the returned
iteration and true at every earlier one. -/
theorem desktopWaitLoop_spec (flags : Nat → Bool) :
    ∀ (fuel k ke : Nat), desktopWaitLoop flags fuel k = some ke →
      flags ke = false ∧ (∀ j, k ≤ j → j < ke → flags j = true) := by
  intro fuel
  induction fuel with
  | zero =>
    intro k ke h
    by_cases hk : flags k = true
    · simp [desktopWaitLoop, hk] at h
    · simp only [Bool.not_eq_true] at hk
      simp [desktopWaitLoop, hk] at h
      subst h
      exact ⟨hk, by intro j h1 h2; omega⟩
  | succ fuel ih =>
    intro k ke h
    by_cases hk : flags k = true
    · simp only [desktopWaitLoop, hk, if_true] at h
      obtain ⟨h1, h2⟩ := ih (k + 1) ke h
      refine ⟨h1, ?_⟩
      intro j hj1 hj2
      rcases Nat.eq_or_lt_of_le hj1 with he | hl
      · rw [← he]; exact hk
      · exact h2 j hl hj2
    · simp only [Bool.not_eq_true] at hk
      simp [desktopWaitLoop, hk] at h
      subst h
      exact ⟨hk, by intro j h1 h2; omega⟩

/-- If the flag is false after `n` more iterations, fuel `n + 1` is
enough for the desktop wait loop to finish. -/
theorem desktopWaitLoop_isSome (flags : Nat → Bool) :
    ∀ (n k : Nat), flags (k + n) = false →
      (desktopWaitLoop flags (n + 1) k).isSome = true := by
  intro n
  induction n with
  | zero =>
    intro k h
    rw [Nat.add_zero] at h
    simp [desktopWaitLoop, h]
  | succ n ih =>
    intro k h
    have h' : flags ((k + 1) + n) = false := by
      have e : (k + 1) + n = k + (n + 1) := by omega
      rw [e]; exact h
    by_cases hk : flags k = true
    · simp only [desktopWaitLoop, hk, if_true]
      exact ih (k + 1) h'
    · simp only [Bool.not_eq_true] at hk
      simp [desktopWaitLoop, hk]

/-! ## Helper lemmas about the cloud flow -/

/-- The full operation sequence of a run that reaches the download. -/
def fullCloudOps (env : SarvamEnv) (wav model prompt : String) : List CloudOp :=
  [CloudOp.createJob model false 1 prompt, CloudOp.uploadFiles [wav],
   CloudOp.startJob, CloudOp.waitUntilComplete, CloudOp.isFailedCheck,
   CloudOp.makeOutputDir (pathJoin env.cwd "sarvamai_output"),
   CloudOp.downloadOutputs (pathJoin env.cwd "sarvamai_output")]

/-- Whatever the environment answers, the trace of a call is an initial
segment of the seven-operation sequence: the flow is straight-line, with
early exits and no retry. -/
theorem translate_trace_take (env : SarvamEnv) (wav api_key model prompt : String) :
    ∃ n : Nat,
      (translate_audio_with_sarvamai env wav api_key model prompt).1 =
        (fullCloudOps env wav model prompt).take n := by
  obtain ⟨ir, cr, jr, ur, sr, wr, jf, mr, dr, cw, outs⟩ := env
  simp only [translate_audio_with_sarvamai, translate_body, fullCloudOps]
  rcases ir with _ | e
  · rcases cr with _ | e
    · rcases jr with _ | e
      · rcases ur with _ | e
        · rcases sr with _ | e
          · rcases wr with _ | e
            · rcases jf
              · rcases mr with _ | e
                · rcases dr with _ | e
                  · by_cases ha : (aggregateOutputs outs).isEmpty
                    · exact ⟨7, by simp [ha]⟩
                    · exact ⟨7, by simp [ha]⟩
                  · exact ⟨7, rfl⟩
                · exact ⟨6, rfl⟩
              · exact ⟨5, rfl⟩
            · exact ⟨4, rfl⟩
          · exact ⟨3, rfl⟩
        · exact ⟨2, rfl⟩
      · exact ⟨1, rfl⟩
    · exact ⟨0, rfl⟩
  · exact ⟨0, rfl⟩

/-- Each operation kind occurs exactly once in the full sequence. -/
theorem fullCloudOps_countP (env : SarvamEnv) (wav model prompt : String) (k : OpKind) :
    (fullCloudOps env wav model prompt).countP (fun op => op.kind == k) = 1 := by
  cases k <;> simp [fullCloudOps, List.countP_cons, CloudOp.kind]

/-! ## Claim theorems: the cloud flow -/

/-- C2: when no step of `translate_audio_with_sarvamai` raises, the
cloud operations happen in the order create job, upload the single WAV
file, start, wait until complete, check failure — each exactly once; on
a failed job the call returns `(False, "STT job failed.")` without
downloading, and only otherwise it downloads the outputs. -/
theorem c2_cloud_flow_order (env : SarvamEnv) (wav api_key model prompt : String)
    (h0 : env.importRaise = none) (h1 : env.clientRaise = none) (h2 : env.createRaise = none)
    (h3 : env.uploadRaise = none) (h4 : env.startRaise = none) (h5 : env.waitRaise = none)
    (h6 : env.mkdirRaise = none) (h7 : env.downloadRaise = none) :
    (env.jobFailed = true →
       translate_audio_with_sarvamai env wav api_key model prompt =
         ([CloudOp.createJob model false 1 prompt, CloudOp.uploadFiles [wav],
           CloudOp.startJob, CloudOp.waitUntilComplete, CloudOp.isFailedCheck],
          false, "STT job failed.")) ∧
    (env.jobFailed = false →
       ∃ m : String,
         translate_audio_with_sarvamai env wav api_key model prompt =
           (fullCloudOps env wav model prompt, true, m)) := by
  constructor
  · intro hj
    simp [translate_audio_with_sarvamai, translate_body, h0, h1, h2, h3, h4, h5, hj]
  · intro hj
    by_cases ha : (aggregateOutputs env.outputs).isEmpty
    · refine ⟨"Output downloaded to: " ++ pathJoin env.cwd "sarvamai_output" ++
        " (no text/json translation found).", ?_⟩
      simp [translate_audio_with_sarvamai, translate_body, fullCloudOps,
            h0, h1, h2, h3, h4, h5, h6, h7, hj, ha]
    · refine ⟨String.intercalate "\n\n" (aggregateOutputs env.outputs), ?_⟩
      simp [translate_audio_with_sarvamai, translate_body, fullCloudOps,
            h0, h1, h2, h3, h4, h5, h6, h7, hj, ha]

/-- Witness for C2 at a concrete environment whose job reports failure. -/
def c2env : SarvamEnv :=
  { importRaise := none, clientRaise := none, createRaise := none, uploadRaise := none,
    startRaise := none, waitRaise := none, jobFailed := true, mkdirRaise := none,
    downloadRaise := none, cwd := "/app", outputs := [] }

theorem c2_cloud_flow_order_witness :
    translate_audio_with_sarvamai c2env "rec.wav" "" "saaras:v2.5" "casual chat" =
      ([CloudOp.createJob "saaras:v2.5" false 1 "casual chat", CloudOp.uploadFiles ["rec.wav"],
        CloudOp.startJob, CloudOp.waitUntilComplete, CloudOp.isFailedCheck],
       false, "STT job failed.") :=
  (c2_cloud_flow_order c2env "rec.wav" "" "saaras:v2.5" "casual chat"
    rfl rfl rfl rfl rfl rfl rfl rfl).1 rfl

/-- C3: the wrapper is total over every environment: each operation kind
is attempted at most once (no retry), a failed import yields the
library-unavailable message, and any exception escaping the body is caught and turned
into `(False, "Translation error: " ++ e)`. -/
theorem c3_catch_all_no_retry (env : SarvamEnv) (wav api_key model prompt : String) :
    (∀ k : OpKind,
       ((translate_audio_with_sarvamai env wav api_key model prompt).1.countP
          (fun op => op.kind == k)) ≤ 1) ∧
    (∀ e, env.importRaise = some e →
       (translate_audio_with_sarvamai env wav api_key model prompt).2 =
         (false, "sarvamai lib not available on runtime: " ++ e)) ∧
    (∀ tr e, translate_body env wav api_key model prompt = (tr, Except.error e) →
       env.importRaise = none →
       (translate_audio_with_sarvamai env wav api_key model prompt).2 =
         (false, "Translation error: " ++ e)) := by
  refine ⟨?_, ?_, ?_⟩
  · intro k
    obtain ⟨n, hn⟩ := translate_trace_take env wav api_key model prompt
    rw [hn]
    calc ((fullCloudOps env wav model prompt).take n).countP (fun op => op.kind == k)
        ≤ (fullCloudOps env wav model prompt).countP (fun op => op.kind == k) :=
          List.Sublist.countP_le _ (List.take_sublist n _)
      _ = 1 := fullCloudOps_countP env wav model prompt k
  · intro e he
    simp [translate_audio_with_sarvamai, he]
  · intro tr e hbody hi
    simp only [translate_audio_with_sarvamai, hi]
    rw [hbody]

/-- Witness for C3 at a concrete environment whose import fails. -/
def c3env : SarvamEnv :=
  { importRaise := some "No module named sarvamai", clientRaise := none, createRaise := none,
    uploadRaise := none, startRaise := none, waitRaise := none, jobFailed := false,
    mkdirRaise := none, downloadRaise := none, cwd := "/app", outputs := [] }

theorem c3_catch_all_no_retry_witness :
    ((translate_audio_with_sarvamai c3env "rec.wav" "" "saaras:v2.5" "casual chat").1.countP
       (fun op => op.kind == OpKind.create)) ≤ 1 ∧
    (translate_audio_with_sarvamai c3env "rec.wav" "" "saaras:v2.5" "casual chat").2 =
      (false, "sarvamai lib not available on runtime: " ++ "No module named sarvamai") :=
  ⟨(c3_catch_all_no_retry c3env "rec.wav" "" "saaras:v2.5" "casual chat").1 OpKind.create,
   (c3_catch_all_no_retry c3env "rec.wav" "" "saaras:v2.5" "casual chat").2.1
     "No module named sarvamai" rfl⟩

/-- C5: every job creation carries `with_diarization=False` and
`num_speakers=1`: any `createJob` operation in any trace of the wrapper
has those arguments. -/
theorem c5_diarization_disabled (env : SarvamEnv) (wav api_key model prompt : String)
    (m2 p2 : String) (d : Bool) (ns : Nat)
    (hmem : CloudOp.createJob m2 d ns p2 ∈
      (translate_audio_with_sarvamai env wav api_key model prompt).1) :
    d = false ∧ ns = 1 := by
  obtain ⟨n, hn⟩ := translate_trace_take env wav api_key model prompt
  rw [hn] at hmem
  have hfull := List.take_subset n (fullCloudOps env wav model prompt) hmem
  simp [fullCloudOps] at hfull
  exact ⟨hfull.2.1, hfull.2.2.1⟩

/-- Witness for C5 at a concrete environment. -/
def c5env : SarvamEnv :=
  { importRaise := none, clientRaise := none, createRaise := none, uploadRaise := none,
    startRaise := none, waitRaise := none, jobFailed := true, mkdirRaise := none,
    downloadRaise := none, cwd := "/app", outputs := [] }

theorem c5_diarization_disabled_witness : false = false ∧ 1 = 1 :=
  c5_diarization_disabled c5env "rec.wav" "" "saaras:v2.5" "casual chat"
    "saaras:v2.5" "casual chat" false 1 (by simp [translate_audio_with_sarvamai,
      translate_body, c5env])

/-- C8: a run in which nothing raises, the job succeeds, and no output
file yields any text still returns success, with a message that only
names the output directory. -/
theorem c8_success_without_text (env : SarvamEnv) (wav api_key model prompt : String)
    (h0 : env.importRaise = none) (h1 : env.clientRaise = none) (h2 : env.createRaise = none)
    (h3 : env.uploadRaise = none) (h4 : env.startRaise = none) (h5 : env.waitRaise = none)
    (h6 : env.mkdirRaise = none) (h7 : env.downloadRaise = none)
    (hj : env.jobFailed = false)
    (hout : ∀ f ∈ env.outputs, extractFromFile f = []) :
    (translate_audio_with_sarvamai env wav api_key model prompt).2 =
      (true, "Output downloaded to: " ++ pathJoin env.cwd "sarvamai_output" ++
             " (no text/json translation found).") := by
  have hagg : aggregateOutputs env.outputs = [] := by
    simp only [aggregateOutputs, List.flatten_eq_nil_iff]
    intro x hx
    simp only [List.mem_map] at hx
    obtain ⟨f, hf, hfx⟩ := hx
    rw [← hfx]
    exact hout f hf
  have ha : (aggregateOutputs env.outputs).isEmpty = true := by simp [hagg]
  simp [translate_audio_with_sarvamai, translate_body, h0, h1, h2, h3, h4, h5, h6, h7, hj, ha]

/-- Witness for C8: a run whose only output is a JSON file that fails to
parse. -/
def c8env : SarvamEnv :=
  { importRaise := none, clientRaise := none, createRaise := none, uploadRaise := none,
    startRaise := none, waitRaise := none, jobFailed := false, mkdirRaise := none,
    downloadRaise := none, cwd := "/app",
    outputs := [{ name := "out.json", text := "", json := none }] }

theorem c8_success_without_text_witness :
    (translate_audio_with_sarvamai c8env "rec.wav" "" "saaras:v2.5" "casual chat").2 =
      (true, "Output downloaded to: " ++ pathJoin "/app" "sarvamai_output" ++
             " (no text/json translation found).") :=
  c8_success_without_text c8env "rec.wav" "" "saaras:v2.5" "casual chat"
    rfl rfl rfl rfl rfl rfl rfl rfl rfl (by decide)

/-! ## Helper lemmas about the capture routine -/

theorem packChunk_flatten (L : List (List Int)) :
    (L.map packChunk).flatten = packChunk L.flatten := by
  induction L with
  | nil => simp [packChunk]
  | cons a l ih => simp [packChunk_append, ih]

/-- Every wroteFrames event of the loop carries manually packed bytes. -/
theorem androidLoop_wroteFrames_packed (env : AndroidEnv) (cs : Nat) :
    ∀ (fuel k : Nat) (w w' : WaveWrite) (evs : List RecEvent) (ke : Nat),
      androidLoop env cs fuel k w = some (w', evs, ke) →
      ∀ b, RecEvent.wroteFrames b ∈ evs → ∃ chunk, b = packChunk chunk := by
  intro fuel
  induction fuel with
  | zero =>
    intro k w w' evs ke h b hb
    by_cases hk : env.flags k = true
    · simp [androidLoop, hk] at h
    · simp only [Bool.not_eq_true] at hk
      simp [androidLoop, hk] at h
      obtain ⟨_, hevs, _⟩ := h
      subst hevs
      simp at hb
  | succ fuel ih =>
    intro k w w' evs ke h b hb
    by_cases hk : env.flags k = true
    · simp only [androidLoop, hk, if_true] at h
      by_cases hr : 0 < ((env.reads k).take cs).length
      · simp only [hr, if_true] at h
        cases hm : androidLoop env cs fuel (k + 1)
            (w.writeframes (packChunk ((env.reads k).take cs))) with
        | none => rw [hm] at h; simp at h
        | some r =>
          obtain ⟨w2, evs2, ke2⟩ := r
          rw [hm] at h
          simp only [Option.some.injEq, Prod.mk.injEq] at h
          obtain ⟨_, hevs, _⟩ := h
          subst hevs
          simp only [List.mem_cons] at hb
          rcases hb with hb | hb | hb
          · exact absurd hb (by simp)
          · exact ⟨(env.reads k).take cs, by injection hb⟩
          · exact ih (k + 1) _ _ _ _ hm b hb
      · simp only [hr, if_false] at h
        cases hm : androidLoop env cs fuel (k + 1) w with
        | none => rw [hm] at h; simp at h
        | some r =>
          obtain ⟨w2, evs2, ke2⟩ := r
          rw [hm] at h
          simp only [Option.some.injEq, Prod.mk.injEq] at h
          obtain ⟨_, hevs, _⟩ := h
          subst hevs
          simp only [List.mem_cons] at hb
          rcases hb with hb | hb | hb
          · exact absurd hb (by simp)
          · exact absurd hb (by simp)
          · exact ih (k + 1) _ _ _ _ hm b hb
    · simp only [Bool.not_eq_true] at hk
      simp [androidLoop, hk] at h
      obtain ⟨_, hevs, _⟩ := h
      subst hevs
      simp at hb

/-- A completed run of the capture routine is either the raised
initialization failure, or a normal run built from a finished loop. -/
theorem record_android_pcm_cases (env : AndroidEnv) (fuel : Nat) (path : String)
    (sr ch : Nat) (run : AndroidRun)
    (h : record_android_pcm env fuel path sr ch = some run) :
    (env.stateInitialized = false ∧
       run = { events := [], wave := none,
               raised := some "AudioRecord initialization failed (state != INITIALIZED)",
               kend := none }) ∨
    (env.stateInitialized = true ∧ ∃ cs w loopEvs ke,
       androidLoop env cs fuel 0
           (((WaveWrite.openWav.setnchannels ch).setsampwidth 2).setframerate sr) =
         some (w, loopEvs, ke) ∧
       run = { events :=
                 [RecEvent.waveOpened, RecEvent.startedRecording,
                  RecEvent.appendedOutput "Recording (Android) ... speak now"] ++
                 loopEvs ++
                 [RecEvent.stopped, RecEvent.released, RecEvent.waveClosed,
                  RecEvent.appendedOutput ("Saved WAV to: " ++ path)],
               wave := some w, raised := none, kend := some ke }) := by
  by_cases hs : env.stateInitialized = false
  · left
    refine ⟨hs, ?_⟩
    simp only [record_android_pcm, hs] at h
    simp at h
    exact h.symm
  · right
    have hs' : env.stateInitialized = true := by
      revert hs; cases env.stateInitialized <;> simp
    refine ⟨hs', ?_⟩
    simp only [record_android_pcm, hs'] at h
    simp only [Bool.true_eq_false, if_false] at h
    split at h
    · exact absurd h (by simp)
    · rename_i w loopEvs ke heq
      refine ⟨_, w, loopEvs, ke, heq, ?_⟩
      injection h with h2
      exact h2.symm

/-- With an initialized recorder and a flag that turns false, the
capture routine finishes within fuel one more than the false index. -/
theorem record_android_pcm_isSome (env : AndroidEnv) (n : Nat) (path : String) (sr ch : Nat)
    (hst : env.stateInitialized = true) (hn : env.flags n = false) :
    (record_android_pcm env (n + 1) path sr ch).isSome = true := by
  simp only [record_android_pcm, hst]
  simp only [Bool.true_eq_false, if_false]
  split
  · rename_i heq
    exact absurd heq (Option.isSome_iff_ne_none.mp
      (androidLoop_isSome env _ n 0 _ (by simpa using hn)))
  · simp

/-! ## Claim theorems: the capture paths -/

/-- C1: both completed recording paths write a WAV with 1 channel,
16000 Hz, 2-byte samples, and every sample encoded little-endian signed
16-bit: the desktop writer is parameterized 1/2/16000 and holds exactly
the packed bytes of the captured samples; any finished Android run's
writer is parameterized the same and holds packed bytes of some sample
list; and `int16le` is indeed the invertible little-endian signed 16-bit
encoding on the 16-bit range. -/
theorem c1_wav_format :
    (∀ frames : List (List Int),
       (record_worker_desktop frames).nchannels = some 1 ∧
       (record_worker_desktop frames).sampwidth = some 2 ∧
       (record_worker_desktop frames).framerate = some 16000 ∧
       (record_worker_desktop frames).frames = packChunk frames.flatten) ∧
    (∀ (env : AndroidEnv) (fuel : Nat) (path : String) (run : AndroidRun) (w : WaveWrite),
       record_worker_android env fuel path = some run → run.wave = some w →
       w.nchannels = some 1 ∧ w.sampwidth = some 2 ∧ w.framerate = some 16000 ∧
       ∃ S : List Int, w.frames = packChunk S) ∧
    (∀ v : Int, -32768 ≤ v → v < 32768 → decodeInt16le (int16le v) = v) := by
  refine ⟨?_, ?_, ?_⟩
  · intro frames
    refine ⟨rfl, rfl, rfl, ?_⟩
    simp [record_worker_desktop, WaveWrite.openWav, WaveWrite.setnchannels,
          WaveWrite.setsampwidth, WaveWrite.setframerate, WaveWrite.writeframes,
          packChunk_flatten]
  · intro env fuel path run w h hw
    rcases record_android_pcm_cases env fuel path sample_rate channels run h with
      ⟨_, heq⟩ | ⟨_, cs, w2, loopEvs, ke, hm, heq⟩
    · rw [heq] at hw; simp at hw
    · rw [heq] at hw
      simp only [Option.some.injEq] at hw
      subst hw
      obtain ⟨h1, h2, h3, ⟨S, hS⟩, _, _⟩ :=
        androidLoop_spec env cs fuel 0 _ w2 loopEvs ke hm
      refine ⟨?_, ?_, ?_, ⟨S, ?_⟩⟩
      · rw [h1]; rfl
      · rw [h2]; rfl
      · rw [h3]; rfl
      · rw [hS]; rfl
  · intro v h1 h2
    simp only [int16le, decodeInt16le]
    omega

/-- Witness for C1: a concrete desktop capture, a concrete finished
Android run, and a concrete sample value. -/
def c1env : AndroidEnv :=
  { minBuf := 4, stateInitialized := true, flags := fun _ => false, reads := fun _ => [] }

def c1run : AndroidRun :=
  { events := [RecEvent.waveOpened, RecEvent.startedRecording,
               RecEvent.appendedOutput "Recording (Android) ... speak now",
               RecEvent.stopped, RecEvent.released, RecEvent.waveClosed,
               RecEvent.appendedOutput "Saved WAV to: a.wav"],
    wave := some { nchannels := some 1, sampwidth := some 2, framerate := some 16000,
                   frames := [] },
    raised := none, kend := some 0 }

theorem c1_wav_format_witness :
    ((record_worker_desktop [[1, -2], [3]]).frames = packChunk [1, -2, 3]) ∧
    ({ nchannels := some 1, sampwidth := some 2, framerate := some 16000,
       frames := [] : WaveWrite }.nchannels = some 1 ∧
     { nchannels := some 1, sampwidth := some 2, framerate := some 16000,
       frames := [] : WaveWrite }.sampwidth = some 2 ∧
     { nchannels := some 1, sampwidth := some 2, framerate := some 16000,
       frames := [] : WaveWrite }.framerate = some 16000 ∧
     ∃ S : List Int,
       { nchannels := some 1, sampwidth := some 2, framerate := some 16000,
         frames := [] : WaveWrite }.frames = packChunk S) ∧
    decodeInt16le (int16le (-12345)) = -12345 :=
  ⟨(c1_wav_format.1 [[1, -2], [3]]).2.2.2,
   c1_wav_format.2.1 c1env 1 "a.wav" c1run
     { nchannels := some 1, sampwidth := some 2, framerate := some 16000, frames := [] }
     rfl rfl,
   c1_wav_format.2.2 (-12345) (by decide) (by decide)⟩

/-- C4: the capture loops are bounded only by the toggled recording
flag.  On Android: with an initialized recorder and any execution in
which the flag reads false at some iteration, the run completes, raises
nothing, iterates exactly while the flag is true, and ends with stop,
release, wave close.  On desktop: the wait loop likewise terminates once
the flag reads false. -/
theorem c4_loop_bounded_by_flag :
    (∀ (env : AndroidEnv) (n : Nat) (path : String),
       env.stateInitialized = true → env.flags n = false →
       ∃ run : AndroidRun,
         record_worker_android env (n + 1) path = some run ∧ run.raised = none ∧
         (∃ evs0, run.events = evs0 ++
             [RecEvent.stopped, RecEvent.released, RecEvent.waveClosed,
              RecEvent.appendedOutput ("Saved WAV to: " ++ path)]) ∧
         (∃ ke, run.kend = some ke ∧ env.flags ke = false ∧
            ∀ j, j < ke → env.flags j = true)) ∧
    (∀ (flags : Nat → Bool) (n : Nat), flags n = false →
       ∃ ke, desktopWaitLoop flags (n + 1) 0 = some ke ∧ flags ke = false ∧
         ∀ j, j < ke → flags j = true) := by
  constructor
  · intro env n path hst hn
    have hs := record_android_pcm_isSome env n path sample_rate channels hst hn
    obtain ⟨run, hrun⟩ := Option.isSome_iff_exists.mp hs
    refine ⟨run, hrun, ?_⟩
    rcases record_android_pcm_cases env (n + 1) path sample_rate channels run hrun with
      ⟨hsf, _⟩ | ⟨_, cs, w, loopEvs, ke, hm, heq⟩
    · rw [hst] at hsf; simp at hsf
    · obtain ⟨_, _, _, _, h5, h6⟩ :=
        androidLoop_spec env cs (n + 1) 0 _ w loopEvs ke hm
      subst heq
      refine ⟨rfl, ?_, ke, rfl, h5, ?_⟩
      · exact ⟨[RecEvent.waveOpened, RecEvent.startedRecording,
                RecEvent.appendedOutput "Recording (Android) ... speak now"] ++ loopEvs,
              by simp⟩
      · intro j hj
        exact h6 j (Nat.zero_le j) hj
  · intro flags n hn
    have hs := desktopWaitLoop_isSome flags n 0 (by simpa using hn)
    obtain ⟨ke, hke⟩ := Option.isSome_iff_exists.mp hs
    obtain ⟨h1, h2⟩ := desktopWaitLoop_spec flags (n + 1) 0 ke hke
    exact ⟨ke, hke, h1, fun j hj => h2 j (Nat.zero_le j) hj⟩

/-- Witness for C4: a flag that is true at iteration 0 and false from
iteration 1 on, with one chunk delivered. -/
def c4env : AndroidEnv :=
  { minBuf := 4, stateInitialized := true, flags := fun k => k == 0, reads := fun _ => [7] }

theorem c4_loop_bounded_by_flag_witness :
    (∃ run : AndroidRun,
       record_worker_android c4env 2 "b.wav" = some run ∧ run.raised = none ∧
       (∃ evs0, run.events = evs0 ++
           [RecEvent.stopped, RecEvent.released, RecEvent.waveClosed,
            RecEvent.appendedOutput ("Saved WAV to: " ++ "b.wav")]) ∧
       (∃ ke, run.kend = some ke ∧ c4env.flags ke = false ∧
          ∀ j, j < ke → c4env.flags j = true)) ∧
    (∃ ke, desktopWaitLoop (fun k => k == 0) 2 0 = some ke ∧ (fun k => k == 0) ke = false ∧
       ∀ j, j < ke → (fun k => k == 0) j = true) :=
  ⟨c4_loop_bounded_by_flag.1 c4env 1 "b.wav" rfl rfl,
   c4_loop_bounded_by_flag.2 (fun k => k == 0) 1 rfl⟩

/-- C7 counterexample: the claim says the Android routine itself
constructs the WAV container rather than delegating to a library, i.e.
that no `wave` module call appears in its run; but a concrete completed
run opens and closes the container through the `wave` module. -/
def c7env : AndroidEnv :=
  { minBuf := 4, stateInitialized := true, flags := fun _ => false, reads := fun _ => [] }

def c7run : AndroidRun :=
  { events := [RecEvent.waveOpened, RecEvent.startedRecording,
               RecEvent.appendedOutput "Recording (Android) ... speak now",
               RecEvent.stopped, RecEvent.released, RecEvent.waveClosed,
               RecEvent.appendedOutput "Saved WAV to: rec.wav"],
    wave := some { nchannels := some 1, sampwidth := some 2, framerate := some 16000,
                   frames := [] },
    raised := none, kend := some 0 }

theorem c7_counterexample_container_delegated :
    record_worker_android c7env 1 "rec.wav" = some c7run ∧
    RecEvent.waveOpened ∈ c7run.events ∧ RecEvent.waveClosed ∈ c7run.events :=
  ⟨rfl, by simp [c7run], by simp [c7run]⟩

/-- C7 amended: the Android routine delegates WAV container construction
to the `wave` module (it opens and closes the writer through the
library), while the PCM payload is packed manually: the writer's data
and every written chunk are `int16le`-packed sample bytes. -/
theorem c7_amended_container_via_library (env : AndroidEnv) (fuel : Nat) (path : String)
    (run : AndroidRun) (h : record_worker_android env fuel path = some run)
    (hr : run.raised = none) :
    RecEvent.waveOpened ∈ run.events ∧ RecEvent.waveClosed ∈ run.events ∧
    (∃ w, run.wave = some w ∧ ∃ S : List Int, w.frames = packChunk S) ∧
    (∀ b, RecEvent.wroteFrames b ∈ run.events → ∃ chunk, b = packChunk chunk) := by
  rcases record_android_pcm_cases env fuel path sample_rate channels run h with
    ⟨_, heq⟩ | ⟨_, cs, w, loopEvs, ke, hm, heq⟩
  · rw [heq] at hr; simp at hr
  · obtain ⟨_, _, _, ⟨S, hS⟩, _, _⟩ :=
      androidLoop_spec env cs fuel 0 _ w loopEvs ke hm
    subst heq
    refine ⟨by simp, by simp, ⟨w, rfl, S, by simpa using hS⟩, ?_⟩
    intro b hb
    simp only [List.append_assoc, List.mem_append, List.mem_cons,
               List.not_mem_nil, or_false] at hb
    rcases hb with hb | hb | hb
    · rcases hb with hb | hb | hb <;> exact absurd hb (by simp)
    · exact androidLoop_wroteFrames_packed env cs fuel 0 _ w loopEvs ke hm b hb
    · rcases hb with hb | hb | hb | hb <;> exact absurd hb (by simp)

/-- Witness for the amended C7 at the concrete run above. -/
theorem c7_amended_container_via_library_witness :
    RecEvent.waveOpened ∈ c7run.events ∧ RecEvent.waveClosed ∈ c7run.events ∧
    (∃ w, c7run.wave = some w ∧ ∃ S : List Int, w.frames = packChunk S) ∧
    (∀ b, RecEvent.wroteFrames b ∈ c7run.events → ∃ chunk, b = packChunk chunk) :=
  c7_amended_container_via_library c7env 1 "rec.wav" c7run rfl rfl

/-! ## Claim theorems: UI handlers and post-processing -/

/-- C6: after a recording ends, the returned text is displayed: when the
wrapper returns success the message is appended preceded by
"Translation result:", and on failure "Translation failed: " followed by
the message is appended instead. -/
theorem c6_displays_returned_text (env : SarvamEnv) (fileExists : String → Bool)
    (path apiRaw : String) (hp : path ≠ "") (hex : fileExists path = true) :
    ((translate_audio_with_sarvamai env path (pyStrip apiRaw)
        "saaras:v2.5" "casual chat").2.1 = true →
       (post_process_and_translate env fileExists (some path) apiRaw).outputs =
         ["Starting translation upload...", "Translation result:",
          (translate_audio_with_sarvamai env path (pyStrip apiRaw)
            "saaras:v2.5" "casual chat").2.2]) ∧
    ((translate_audio_with_sarvamai env path (pyStrip apiRaw)
        "saaras:v2.5" "casual chat").2.1 = false →
       (post_process_and_translate env fileExists (some path) apiRaw).outputs =
         ["Starting translation upload...", "Translation failed: " ++
          (translate_audio_with_sarvamai env path (pyStrip apiRaw)
            "saaras:v2.5" "casual chat").2.2]) := by
  have hcond : ¬(path = "" ∨ fileExists path = false) := by
    rw [hex]; simp [hp]
  constructor <;> intro hres <;>
    simp [post_process_and_translate, if_neg hcond, hres]

/-- Witness for C6: a successful concrete run whose single output is a
text file. -/
def c6env : SarvamEnv :=
  { importRaise := none, clientRaise := none, createRaise := none, uploadRaise := none,
    startRaise := none, waitRaise := none, jobFailed := false, mkdirRaise := none,
    downloadRaise := none, cwd := "/app",
    outputs := [{ name := "out.txt", text := "hello", json := none }] }

theorem c6_displays_returned_text_witness :
    (post_process_and_translate c6env (fun _ => true) (some "rec.wav") " k ").outputs =
      ["Starting translation upload...", "Translation result:",
       (translate_audio_with_sarvamai c6env "rec.wav" (pyStrip " k ")
         "saaras:v2.5" "casual chat").2.2] :=
  (c6_displays_returned_text c6env (fun _ => true) "rec.wav" " k "
    (by decide) rfl).1 (by decide)

/-- C9: with the stored path unset or naming a missing file,
post-processing only appends "No recorded file found." and performs no
cloud call. -/
theorem c9_no_call_without_file (env : SarvamEnv) (fileExists : String → Bool)
    (wavPath : Option String) (apiRaw : String)
    (h : wavPath = none ∨ ∃ p, wavPath = some p ∧ fileExists p = false) :
    post_process_and_translate env fileExists wavPath apiRaw =
      { outputs := ["No recorded file found."], called := false, cloudTrace := [] } := by
  rcases h with h | ⟨p, hp, hfe⟩
  · subst h; rfl
  · subst hp
    simp [post_process_and_translate, hfe]

/-- Witness for C9 with the path unset. -/
def c9env : SarvamEnv :=
  { importRaise := none, clientRaise := none, createRaise := none, uploadRaise := none,
    startRaise := none, waitRaise := none, jobFailed := false, mkdirRaise := none,
    downloadRaise := none, cwd := "/app", outputs := [] }

theorem c9_no_call_without_file_witness :
    post_process_and_translate c9env (fun _ => false) none "" =
      { outputs := ["No recorded file found."], called := false, cloudTrace := [] } :=
  c9_no_call_without_file c9env (fun _ => false) none "" (Or.inl rfl)

/-- C10: a touch that does not collide with the record button leaves the
state unchanged and starts no thread, in both handlers. -/
theorem c10_miss_touch_no_effect (st : UIState) :
    on_record_press false st = (st, []) ∧ on_record_release false st = (st, []) := by
  constructor <;> rfl

/-- Witness for C10 at a concrete state. -/
theorem c10_miss_touch_no_effect_witness :
    on_record_press false
        { recording := false, btnText := "⏺ Hold to Record", outputBox := "", wavPath := none } =
      ({ recording := false, btnText := "⏺ Hold to Record", outputBox := "", wavPath := none },
       []) ∧
    on_record_release false
        { recording := false, btnText := "⏺ Hold to Record", outputBox := "", wavPath := none } =
      ({ recording := false, btnText := "⏺ Hold to Record", outputBox := "", wavPath := none },
       []) :=
  c10_miss_touch_no_effect
    { recording := false, btnText := "⏺ Hold to Record", outputBox := "", wavPath := none }

end SpeechApp
